import Mathlib

/-!
Verification of the region pre/post-processing pipeline of the
visual-generations repository against its natural-language specification.

The embedding follows the Python sources:
- `src/gen_ai/constants/inpainting_configuration_types.py` (policy enums),
- `src/gen_ai/image_gen/stable_diffusion_15/stable_diffusion.py`
  (the `StableDiffusion` class: pipeline loading, guards, and the
  inpainting batch orchestrator `_generate_images_inpainting`).

The inpainting utility module (`preprocess_inputs`, `postprocess_outputs`,
bounding-box geometry and blending) is not part of the available sources;
where a claim depends on it, a definition is modelled from the spec and
marked `Modelled from the spec:` in its doc comment.
-/

namespace VisualGen

/-- Embeds `InpaintingPreProcessTypes` from
`inpainting_configuration_types.py`: the inpainting pre-processing
policies. -/
inductive InpaintingPreProcessTypes where
  | NONE
  | RESIZE
  | CROP_AND_RESIZE
deriving DecidableEq, Repr

/-- The integer value of each `InpaintingPreProcessTypes` member, as the
`IntEnum` assigns it. -/
def InpaintingPreProcessTypes.value : InpaintingPreProcessTypes → Nat
  | .NONE => 1
  | .RESIZE => 2
  | .CROP_AND_RESIZE => 3

/-- Embeds `InpaintingPostProcessTypes` from
`inpainting_configuration_types.py`: the inpainting post-processing
policies. -/
inductive InpaintingPostProcessTypes where
  | NONE
  | DIRECT_REPLACE
  | BLEND
deriving DecidableEq, Repr

/-- The integer value of each `InpaintingPostProcessTypes` member, as the
`IntEnum` assigns it. -/
def InpaintingPostProcessTypes.value : InpaintingPostProcessTypes → Nat
  | .NONE => 1
  | .DIRECT_REPLACE => 2
  | .BLEND => 3

/-- Embeds `InpaintingBlendingTypes` from
`inpainting_configuration_types.py`: the blending variants. -/
inductive InpaintingBlendingTypes where
  | NONE
  | POISSON_BLENDING
  | GAUSSIAN_BLENDING
  | LINEAR_BLENDING
  | SMOOTH_BLENDING
  | SMOOTHER_BLENDING
deriving DecidableEq, Repr

/-- The integer value of each `InpaintingBlendingTypes` member, as the
`IntEnum` assigns it. -/
def InpaintingBlendingTypes.value : InpaintingBlendingTypes → Nat
  | .NONE => 1
  | .POISSON_BLENDING => 2
  | .GAUSSIAN_BLENDING => 3
  | .LINEAR_BLENDING => 4
  | .SMOOTH_BLENDING => 5
  | .SMOOTHER_BLENDING => 6

/-!
## The inpainting batch orchestrator

`_generate_images_inpainting` (stable_diffusion.py, lines 330-403) loops
`num_batches` times; each iteration calls `preprocess_inputs` on the
configured image/mask with the preprocess policy and target width/height,
passes the resulting pair to the diffusion pipeline call, maps
`postprocess_outputs` over the pipeline's outputs with the original image,
original mask and the configured policies, and extends the accumulator
list. `Img` and `Mask` are abstract pixel-buffer types; the collaborators
`preprocess_inputs` (returning an image/mask pair, exactly as the caller
unpacks it), the pipeline call (indexed by invocation count, since the
pipeline object is stateful, and returning `Except` since a Python call
either returns images or raises), and `postprocess_outputs` are
parameters. -/

/-- The fields of `StableDiffusionInputConfig` that
`_generate_images_inpainting` reads: the original image and mask, the
three policies, the target width/height and the batch count. -/
structure InpaintConfig (Img Mask : Type) where
  image : Img
  mask_image : Mask
  preprocess_type : InpaintingPreProcessTypes
  postprocess_type : InpaintingPostProcessTypes
  blending_type : InpaintingBlendingTypes
  width : Nat
  height : Nat
  num_batches : Nat

/-- The loop body of `_generate_images_inpainting`: `n` iterations remain,
`k` is the index of the next pipeline invocation, `images` is the
accumulator. A pipeline exception propagates, discarding the accumulator,
exactly as an uncaught Python exception leaves the local `images` list
behind. -/
def genInpaintLoop {Img Mask E : Type}
    (pre : Img → Mask → InpaintingPreProcessTypes → Nat → Nat → Img × Mask)
    (pipe : Nat → Img → Mask → Except E (List Img))
    (post : Img → Mask → Img → InpaintingPreProcessTypes →
      InpaintingPostProcessTypes → InpaintingBlendingTypes → Img)
    (cfg : InpaintConfig Img Mask) :
    Nat → Nat → List Img → Except E (List Img)
  | 0, _, images => .ok images
  | n + 1, k, images =>
    let pm := pre cfg.image cfg.mask_image cfg.preprocess_type cfg.width cfg.height
    match pipe k pm.1 pm.2 with
    | .error e => .error e
    | .ok outs =>
      genInpaintLoop pre pipe post cfg n (k + 1)
        (images ++ outs.map (fun o =>
          post cfg.image cfg.mask_image o cfg.preprocess_type
            cfg.postprocess_type cfg.blending_type))

/-- Embeds `_generate_images_inpainting` (without the final optional
save-to-disk step, which does not alter the returned list): run the batch
loop `num_batches` times starting from an empty accumulator. -/
def generateImagesInpainting {Img Mask E : Type}
    (pre : Img → Mask → InpaintingPreProcessTypes → Nat → Nat → Img × Mask)
    (pipe : Nat → Img → Mask → Except E (List Img))
    (post : Img → Mask → Img → InpaintingPreProcessTypes →
      InpaintingPostProcessTypes → InpaintingBlendingTypes → Img)
    (cfg : InpaintConfig Img Mask) : Except E (List Img) :=
  genInpaintLoop pre pipe post cfg cfg.num_batches 0 []

/-- The per-batch-item result when the pipeline call at index `k` returns
`outs k`: each output postprocessed with the original image, mask and the
configured policies. -/
def batchItemResult {Img Mask : Type}
    (post : Img → Mask → Img → InpaintingPreProcessTypes →
      InpaintingPostProcessTypes → InpaintingBlendingTypes → Img)
    (cfg : InpaintConfig Img Mask) (outs : List Img) : List Img :=
  outs.map (fun o =>
    post cfg.image cfg.mask_image o cfg.preprocess_type
      cfg.postprocess_type cfg.blending_type)

/-- The image/mask pair every iteration passes to the pipeline: the
configured image and mask preprocessed with the configured policy and
target width/height. -/
def preprocessedPair {Img Mask : Type}
    (pre : Img → Mask → InpaintingPreProcessTypes → Nat → Nat → Img × Mask)
    (cfg : InpaintConfig Img Mask) : Img × Mask :=
  pre cfg.image cfg.mask_image cfg.preprocess_type cfg.width cfg.height

theorem genInpaintLoop_step_ok {Img Mask E : Type}
    (pre : Img → Mask → InpaintingPreProcessTypes → Nat → Nat → Img × Mask)
    (pipe : Nat → Img → Mask → Except E (List Img))
    (post : Img → Mask → Img → InpaintingPreProcessTypes →
      InpaintingPostProcessTypes → InpaintingBlendingTypes → Img)
    (cfg : InpaintConfig Img Mask) (n k : Nat) (acc outs : List Img)
    (h : pipe k (preprocessedPair pre cfg).1 (preprocessedPair pre cfg).2 =
      .ok outs) :
    genInpaintLoop pre pipe post cfg (n + 1) k acc =
      genInpaintLoop pre pipe post cfg n (k + 1)
        (acc ++ batchItemResult post cfg outs) := by
  rw [genInpaintLoop]
  simp only [preprocessedPair] at h
  rw [h]
  rfl

theorem genInpaintLoop_step_error {Img Mask E : Type}
    (pre : Img → Mask → InpaintingPreProcessTypes → Nat → Nat → Img × Mask)
    (pipe : Nat → Img → Mask → Except E (List Img))
    (post : Img → Mask → Img → InpaintingPreProcessTypes →
      InpaintingPostProcessTypes → InpaintingBlendingTypes → Img)
    (cfg : InpaintConfig Img Mask) (n k : Nat) (acc : List Img) (e : E)
    (h : pipe k (preprocessedPair pre cfg).1 (preprocessedPair pre cfg).2 =
      .error e) :
    genInpaintLoop pre pipe post cfg (n + 1) k acc = .error e := by
  rw [genInpaintLoop]
  simp only [preprocessedPair] at h
  rw [h]

theorem genInpaintLoop_all_ok {Img Mask E : Type}
    (pre : Img → Mask → InpaintingPreProcessTypes → Nat → Nat → Img × Mask)
    (pipe : Nat → Img → Mask → Except E (List Img))
    (post : Img → Mask → Img → InpaintingPreProcessTypes →
      InpaintingPostProcessTypes → InpaintingBlendingTypes → Img)
    (cfg : InpaintConfig Img Mask) (outs : Nat → List Img) :
    ∀ (n k : Nat) (acc : List Img),
    (∀ j, j < n → pipe (k + j) (preprocessedPair pre cfg).1
      (preprocessedPair pre cfg).2 = .ok (outs (k + j))) →
    genInpaintLoop pre pipe post cfg n k acc =
      .ok (acc ++ (List.range n).flatMap
        (fun j => batchItemResult post cfg (outs (k + j)))) := by
  intro n
  induction n with
  | zero => intro k acc _; simp [genInpaintLoop]
  | succ m ih =>
    intro k acc h
    have h0 : pipe k (preprocessedPair pre cfg).1 (preprocessedPair pre cfg).2 =
        .ok (outs k) := by
      have := h 0 (Nat.succ_pos m)
      simpa using this
    have hrest : ∀ j, j < m → pipe (k + 1 + j) (preprocessedPair pre cfg).1
        (preprocessedPair pre cfg).2 = .ok (outs (k + 1 + j)) := by
      intro j hj
      have := h (j + 1) (Nat.succ_lt_succ hj)
      have harith : k + (j + 1) = k + 1 + j := by omega
      rw [harith] at this
      exact this
    rw [genInpaintLoop_step_ok pre pipe post cfg m k acc (outs k) h0]
    rw [ih (k + 1) _ hrest]
    have harith2 : ∀ j, k + 1 + j = k + (j + 1) := by intro j; omega
    simp only [harith2]
    rw [List.range_succ_eq_map, List.flatMap_cons, List.flatMap_map]
    simp [Function.comp, List.append_assoc]

/-- C1: for every inpainting batch item, the Orchestrator first calls
preprocess on the configured image and mask with the configured preprocess
policy and target width/height, then invokes the external generation call
on the preprocessed image/mask pair, then postprocesses each generated
output with the original image, original mask and the configured
postprocess/blend policies, appending the results in input order: when the
generation call at index `k` returns `outs k`, the orchestrator returns
the concatenation, over the batch indices in order, of the postprocessed
outputs. -/
theorem inpainting_orchestrator_sequence {Img Mask E : Type}
    (pre : Img → Mask → InpaintingPreProcessTypes → Nat → Nat → Img × Mask)
    (pipe : Nat → Img → Mask → Except E (List Img))
    (post : Img → Mask → Img → InpaintingPreProcessTypes →
      InpaintingPostProcessTypes → InpaintingBlendingTypes → Img)
    (cfg : InpaintConfig Img Mask) (outs : Nat → List Img)
    (h : ∀ k, k < cfg.num_batches →
      pipe k (preprocessedPair pre cfg).1 (preprocessedPair pre cfg).2 =
        .ok (outs k)) :
    generateImagesInpainting pre pipe post cfg =
      .ok ((List.range cfg.num_batches).flatMap
        (fun k => batchItemResult post cfg (outs k))) := by
  have := genInpaintLoop_all_ok pre pipe post cfg outs cfg.num_batches 0 []
    (by intro j hj; simpa using h j hj)
  simpa [generateImagesInpainting] using this

/-- Witness for C1 at a concrete batch of two items: the preprocessed pair
is (9 + 4, 8 + 4) = (13, 12), the pipeline returns one image per call, and
the orchestrator returns the two postprocessed outputs in order. -/
theorem inpainting_orchestrator_sequence_witness :
    generateImagesInpainting
      (fun i m _ w h => (i + w, m + h))
      (fun k i m => (.ok [k * 100 + i + m] : Except Unit (List Nat)))
      (fun o m x _ _ _ => o + m + x)
      ⟨9, 8, .CROP_AND_RESIZE, .BLEND, .LINEAR_BLENDING, 4, 4, 2⟩ =
      .ok ((List.range 2).flatMap
        (fun k => batchItemResult (fun o m x _ _ _ => o + m + x)
          ⟨9, 8, .CROP_AND_RESIZE, .BLEND, .LINEAR_BLENDING, 4, 4, 2⟩
          [k * 100 + 25])) :=
  inpainting_orchestrator_sequence
    (fun i m _ w h => (i + w, m + h))
    (fun k i m => (.ok [k * 100 + i + m] : Except Unit (List Nat)))
    (fun o m x _ _ _ => o + m + x)
    ⟨9, 8, .CROP_AND_RESIZE, .BLEND, .LINEAR_BLENDING, 4, 4, 2⟩
    (fun k => [k * 100 + 25])
    (fun _ _ => rfl)

/-!
## C2: batch-level failure behaviour

`_generate_images_inpainting` has no exception handling around the
pipeline call: a failing item raises out of the whole method, so the other
items of the batch never return results. The concrete collaborators below
exhibit a batch of 3 whose second item fails. -/

/-- Pipeline collaborator whose second invocation (index 1) fails and
whose other invocations succeed. -/
def c2pipe : Nat → Nat → Nat → Except Unit (List Nat) :=
  fun k _ _ => if k = 1 then .error () else .ok [k]

/-- Identity-style preprocess collaborator for the C2 scenario. -/
def c2pre : Nat → Nat → InpaintingPreProcessTypes → Nat → Nat → Nat × Nat :=
  fun i m _ _ _ => (i, m)

/-- Pass-through postprocess collaborator for the C2 scenario. -/
def c2post : Nat → Nat → Nat → InpaintingPreProcessTypes →
    InpaintingPostProcessTypes → InpaintingBlendingTypes → Nat :=
  fun _ _ o _ _ _ => o

/-- A batch of 3 items for the C2 scenario. -/
def c2cfg : InpaintConfig Nat Nat :=
  ⟨9, 9, .NONE, .NONE, .NONE, 4, 4, 3⟩

/-- C2 counterexample: in a batch of 3 where item 2 (index 1) fails while
items 1 and 3 would succeed, the orchestrator returns the bare error: the
whole call aborts and no per-item results survive, contradicting the
claimed batch-level partial failure. -/
theorem batch_partial_failure_counterexample :
    c2pipe 0 9 9 = .ok [0] ∧ c2pipe 2 9 9 = .ok [2] ∧
    c2pipe 1 9 9 = .error () ∧
    generateImagesInpainting c2pre c2pipe c2post c2cfg = .error () :=
  ⟨rfl, rfl, rfl, rfl⟩

/-- C2 amended: a generation failure on one batch item aborts the whole
batch call and discards all accumulated results: if every item before
index `k` succeeds and item `k` fails with `e`, the orchestrator returns
exactly `.error e`. -/
theorem batch_failure_aborts_whole_batch {Img Mask E : Type}
    (pre : Img → Mask → InpaintingPreProcessTypes → Nat → Nat → Img × Mask)
    (pipe : Nat → Img → Mask → Except E (List Img))
    (post : Img → Mask → Img → InpaintingPreProcessTypes →
      InpaintingPostProcessTypes → InpaintingBlendingTypes → Img)
    (cfg : InpaintConfig Img Mask) (k : Nat) (e : E)
    (hk : k < cfg.num_batches)
    (hfail : pipe k (preprocessedPair pre cfg).1 (preprocessedPair pre cfg).2 =
      .error e)
    (hok : ∀ i, i < k → ∃ outs, pipe i (preprocessedPair pre cfg).1
      (preprocessedPair pre cfg).2 = .ok outs) :
    generateImagesInpainting pre pipe post cfg = .error e := by
  suffices hgen : ∀ (j n k0 : Nat) (acc : List Img), j < n →
      pipe (k0 + j) (preprocessedPair pre cfg).1 (preprocessedPair pre cfg).2 =
        .error e →
      (∀ i, i < j → ∃ outs, pipe (k0 + i) (preprocessedPair pre cfg).1
        (preprocessedPair pre cfg).2 = .ok outs) →
      genInpaintLoop pre pipe post cfg n k0 acc = .error e by
    exact hgen k cfg.num_batches 0 [] hk (by simpa using hfail)
      (by intro i hi; simpa using hok i hi)
  intro j
  induction j with
  | zero =>
    intro n k0 acc hn hf _
    obtain ⟨m, rfl⟩ := Nat.exists_eq_succ_of_ne_zero (Nat.pos_iff_ne_zero.mp hn)
    have hf0 : pipe k0 (preprocessedPair pre cfg).1 (preprocessedPair pre cfg).2 =
        .error e := by simpa using hf
    exact genInpaintLoop_step_error pre pipe post cfg m k0 acc e hf0
  | succ j ih =>
    intro n k0 acc hn hf hpre
    obtain ⟨m, rfl⟩ := Nat.exists_eq_succ_of_ne_zero
      (Nat.pos_iff_ne_zero.mp (Nat.lt_of_le_of_lt (Nat.zero_le _) hn))
    obtain ⟨outs0, h0⟩ := hpre 0 (Nat.succ_pos j)
    have h0' : pipe k0 (preprocessedPair pre cfg).1 (preprocessedPair pre cfg).2 =
        .ok outs0 := by simpa using h0
    rw [genInpaintLoop_step_ok pre pipe post cfg m k0 acc outs0 h0']
    apply ih m (k0 + 1) _ (Nat.lt_of_succ_lt_succ hn)
    · have harith : k0 + 1 + j = k0 + (j + 1) := by omega
      rw [harith]
      exact hf
    · intro i hi
      have harith : k0 + 1 + i = k0 + (i + 1) := by omega
      rw [harith]
      exact hpre (i + 1) (Nat.succ_lt_succ hi)

/-- Witness for the amended C2 at the concrete batch of 3 failing at
index 1. -/
theorem batch_failure_aborts_whole_batch_witness :
    generateImagesInpainting c2pre c2pipe c2post c2cfg = .error () :=
  batch_failure_aborts_whole_batch c2pre c2pipe c2post c2cfg 1 ()
    (by decide) rfl
    (fun i hi => ⟨[i], by
      have hz : i = 0 := Nat.lt_one_iff.mp hi
      subst hz
      rfl⟩)

/-!
## C4: no RegionMapping flows from preprocess to postprocess

In `_generate_images_inpainting`, the caller unpacks
`image, mask_image = preprocess_inputs(...)` — a pair, not a triple — and
calls `postprocess_outputs` with the original `config.image`,
`config.mask_image`, the inpainted image and the three policy enums only.
No value produced by `preprocess_inputs` reaches `postprocess_outputs`. -/

/-- Preprocess collaborator returning a nontrivial region pair. -/
def c4pre1 : Nat → Nat → InpaintingPreProcessTypes → Nat → Nat → Nat × Nat :=
  fun i m _ w h => (i + w, m + h)

/-- Preprocess collaborator returning a constant region pair. -/
def c4pre2 : Nat → Nat → InpaintingPreProcessTypes → Nat → Nat → Nat × Nat :=
  fun _ _ _ _ _ => (0, 0)

/-- Pipeline collaborator that ignores its inputs (models a fixed
generation outcome). -/
def c4pipe : Nat → Nat → Nat → Except Unit (List Nat) :=
  fun _ _ _ => .ok [7]

/-- Postprocess collaborator that records every argument it receives
injectively into its output value. -/
def c4post : Nat → Nat → Nat → InpaintingPreProcessTypes →
    InpaintingPostProcessTypes → InpaintingBlendingTypes → Nat :=
  fun o m x pr po bl =>
    ((((o * 1000 + m) * 1000 + x) * 10 + pr.value) * 10 + po.value) * 10 +
      bl.value

/-- A single-item batch configuration for the C4 scenario. -/
def c4cfg : InpaintConfig Nat Nat :=
  ⟨9, 8, .CROP_AND_RESIZE, .BLEND, .LINEAR_BLENDING, 4, 4, 1⟩

/-- C4 counterexample: two preprocess collaborators that return different
region pairs on the configured inputs produce byte-identical orchestrator
results when the generation outcome is fixed, and the argument-recording
postprocess shows it received only the original image (9), original mask
(8), the generated image (7) and the policy values — so no RegionMapping
(indeed nothing at all) produced by preprocess is consumed by
postprocess, refuting the claimed triple-and-handoff. -/
theorem prepare_mapping_not_consumed_counterexample :
    c4pre1 9 8 .CROP_AND_RESIZE 4 4 ≠ c4pre2 9 8 .CROP_AND_RESIZE 4 4 ∧
    generateImagesInpainting c4pre1 c4pipe c4post c4cfg =
      generateImagesInpainting c4pre2 c4pipe c4post c4cfg ∧
    generateImagesInpainting c4pre1 c4pipe c4post c4cfg =
      .ok [((((9 * 1000 + 8) * 1000 + 7) * 10 + 3) * 10 + 3) * 10 + 4] :=
  ⟨by decide, rfl, rfl⟩

/-- C4 amended: `preprocess_inputs` returns only an image/mask pair (as
the embedding's type records), and no region-mapping value flows from it
to `postprocess_outputs`: the orchestrator's result depends on the
preprocess output only through the generation call, so any two preprocess
collaborators inducing the same generation outcomes yield identical
results. -/
theorem orchestrator_ignores_prepare_beyond_generation {Img Mask E : Type}
    (pre1 pre2 : Img → Mask → InpaintingPreProcessTypes → Nat → Nat →
      Img × Mask)
    (pipe : Nat → Img → Mask → Except E (List Img))
    (post : Img → Mask → Img → InpaintingPreProcessTypes →
      InpaintingPostProcessTypes → InpaintingBlendingTypes → Img)
    (cfg : InpaintConfig Img Mask)
    (h : ∀ k, pipe k (preprocessedPair pre1 cfg).1
        (preprocessedPair pre1 cfg).2 =
      pipe k (preprocessedPair pre2 cfg).1 (preprocessedPair pre2 cfg).2) :
    generateImagesInpainting pre1 pipe post cfg =
      generateImagesInpainting pre2 pipe post cfg := by
  suffices hloop : ∀ (n k : Nat) (acc : List Img),
      genInpaintLoop pre1 pipe post cfg n k acc =
        genInpaintLoop pre2 pipe post cfg n k acc by
    exact hloop cfg.num_batches 0 []
  intro n
  induction n with
  | zero => intro k acc; rfl
  | succ m ih =>
    intro k acc
    cases hcase : pipe k (preprocessedPair pre1 cfg).1
        (preprocessedPair pre1 cfg).2 with
    | error e =>
      rw [genInpaintLoop_step_error pre1 pipe post cfg m k acc e hcase]
      rw [genInpaintLoop_step_error pre2 pipe post cfg m k acc e
        ((h k).symm.trans hcase)]
    | ok outs =>
      rw [genInpaintLoop_step_ok pre1 pipe post cfg m k acc outs hcase]
      rw [genInpaintLoop_step_ok pre2 pipe post cfg m k acc outs
        ((h k).symm.trans hcase)]
      exact ih (k + 1) _

/-- Witness for the amended C4 at the concrete collaborators of the
counterexample scenario. -/
theorem orchestrator_ignores_prepare_beyond_generation_witness :
    generateImagesInpainting c4pre1 c4pipe c4post c4cfg =
      generateImagesInpainting c4pre2 c4pipe c4post c4cfg :=
  orchestrator_ignores_prepare_beyond_generation c4pre1 c4pre2 c4pipe c4post
    c4cfg (fun _ => rfl)

/-- C3: the public policy enumerations carry exactly the stated stable
integer values — Preprocess NONE=1, RESIZE=2, CROP_AND_RESIZE=3;
Postprocess NONE=1, DIRECT_REPLACE=2, BLEND=3; Blend variant NONE=1,
POISSON=2, GAUSSIAN=3, LINEAR=4, SMOOTH=5, SMOOTHER=6 — and each
enumeration has no members besides the listed ones. -/
theorem policy_enum_values_stable :
    (InpaintingPreProcessTypes.NONE.value = 1 ∧
     InpaintingPreProcessTypes.RESIZE.value = 2 ∧
     InpaintingPreProcessTypes.CROP_AND_RESIZE.value = 3) ∧
    (∀ x : InpaintingPreProcessTypes,
      x = .NONE ∨ x = .RESIZE ∨ x = .CROP_AND_RESIZE) ∧
    (InpaintingPostProcessTypes.NONE.value = 1 ∧
     InpaintingPostProcessTypes.DIRECT_REPLACE.value = 2 ∧
     InpaintingPostProcessTypes.BLEND.value = 3) ∧
    (∀ x : InpaintingPostProcessTypes,
      x = .NONE ∨ x = .DIRECT_REPLACE ∨ x = .BLEND) ∧
    (InpaintingBlendingTypes.NONE.value = 1 ∧
     InpaintingBlendingTypes.POISSON_BLENDING.value = 2 ∧
     InpaintingBlendingTypes.GAUSSIAN_BLENDING.value = 3 ∧
     InpaintingBlendingTypes.LINEAR_BLENDING.value = 4 ∧
     InpaintingBlendingTypes.SMOOTH_BLENDING.value = 5 ∧
     InpaintingBlendingTypes.SMOOTHER_BLENDING.value = 6) ∧
    (∀ x : InpaintingBlendingTypes,
      x = .NONE ∨ x = .POISSON_BLENDING ∨ x = .GAUSSIAN_BLENDING ∨
      x = .LINEAR_BLENDING ∨ x = .SMOOTH_BLENDING ∨
      x = .SMOOTHER_BLENDING) := by
  refine ⟨⟨rfl, rfl, rfl⟩, ?_, ⟨rfl, rfl, rfl⟩, ?_,
    ⟨rfl, rfl, rfl, rfl, rfl, rfl⟩, ?_⟩
  · intro x; cases x <;> simp
  · intro x; cases x <;> simp
  · intro x; cases x <;> simp

/-!
## The `StableDiffusion` class as a state machine

`StableDiffusion` holds `self.pipe` (`None` or a loaded pipeline object)
and `self.model_config`. The embedding models each method as a function
from the state to `(result, new state, event trace)`, where the trace
records the externally visible effects (model loads, directory creation,
pipeline invocations, saves, textual-inversion operations) in order, and
an `Except.error` result models the method raising. A method that raises
before mutating anything returns the input state with an empty trace. -/

/-- Embeds `ImageGenTaskTypes` (referenced by `PIPELINE_CLS_MAP` and the
`generate_images` dispatch). -/
inductive ImageGenTaskTypes where
  | TEXT2IMG
  | IMG2IMG
  | INPAINTING
deriving DecidableEq, Repr

/-- The fields of `StableDiffusionModelConfig` that the pipeline-loading
code reads and writes. A model path is represented by its list of parts,
as `pathlib.Path.parts` exposes it. -/
structure ModelConfig where
  hf_model_id : Option String
  model_path : Option (List String)
  device : String
  task_type : ImageGenTaskTypes
  check_nsfw : Bool
deriving DecidableEq, Repr

/-- The observable state of a loaded diffusers pipeline object: which
descriptor it was loaded from, by which loader, onto which device, whether
its safety checker is still installed, and the currently set scheduler. -/
structure Pipe where
  descriptor : String
  task_type : ImageGenTaskTypes
  from_single_file : Bool
  device : String
  safety_checker : Bool
  scheduler : Option Nat
deriving DecidableEq, Repr

/-- The state of a `StableDiffusion` instance: `self.pipe` and
`self.model_config`. -/
structure SDState where
  pipe : Option Pipe
  model_config : ModelConfig
deriving DecidableEq, Repr

/-- The Python exceptions the embedded methods can raise. -/
inductive SDError where
  | valueError (msg : String)
  | attributeError (msg : String)
deriving DecidableEq, Repr

/-- Externally visible effects of the embedded methods, in order of
occurrence. -/
inductive SDEvent where
  | loadPretrained (descriptor : String)
  | loadSingleFile (descriptor : String)
  | mkdirOutput (dir : String)
  | setScheduler (scheduler : Nat)
  | pipeInvocation
  | saveImages (dir : String)
  | loadTextualInversionCall
  | unloadTextualInversionCall
deriving DecidableEq, Repr

/-- The string form of a path, as `str(model_path)` produces from its
parts. -/
def pathStr (parts : List String) : String :=
  String.intercalate "/" parts

/-- The default HuggingFace model id per task (`PIPELINE_MODEL_MAP`); the
concrete ids live in the `gen_ai.configs.stable_diffusion_15` module,
which is outside the available sources, so the values here are symbolic
stand-ins; no claim depends on them. -/
def PIPELINE_MODEL_MAP : ImageGenTaskTypes → String
  | .TEXT2IMG => "TEXT2IMG_MODEL_ID"
  | .IMG2IMG => "IMG2IMG_MODEL_ID"
  | .INPAINTING => "INPAINTING_MODEL_ID"

/-- The common part of `_load_pipeline` after the early-return checks:
build the pipeline object (`from_single_file` when the path is finetuned,
`from_pretrained` otherwise), move it to the device (the argument or the
configured default), drop the safety checker unless `check_nsfw`, and
record the requested ids and device in `model_config`. -/
def doLoad (s : SDState) (descriptor : String) (finetuned : Bool)
    (hf : Option String) (mp : Option (List String)) (dev : Option String) :
    Except SDError Unit × SDState × List SDEvent :=
  let device := dev.getD s.model_config.device
  let pipe0 : Pipe :=
    { descriptor := descriptor
      task_type := s.model_config.task_type
      from_single_file := finetuned
      device := device
      safety_checker := s.model_config.check_nsfw
      scheduler := none }
  let ev := if finetuned then SDEvent.loadSingleFile descriptor
            else SDEvent.loadPretrained descriptor
  (.ok (),
   { pipe := some pipe0
     model_config :=
      { s.model_config with
          hf_model_id := hf, model_path := mp, device := device } },
   [ev])

/-- Embeds `_load_pipeline` (stable_diffusion.py, lines 114-189): raise
unless exactly one of `hf_model_id`/`model_path` is given; return
immediately when the requested id equals the recorded one and a pipeline
is already loaded; otherwise load, with `from_single_file` exactly when
the path does not contain a `diffusers_cache` part. -/
def loadPipeline (s : SDState) (hf : Option String)
    (mp : Option (List String)) (dev : Option String) :
    Except SDError Unit × SDState × List SDEvent :=
  match hf, mp with
  | none, none =>
    (.error (.valueError "Either hf_model_id or model_path must be provided."),
     s, [])
  | some _, some _ =>
    (.error
      (.valueError "Only one of hf_model_id or model_path should be provided."),
     s, [])
  | some h, none =>
    if s.model_config.hf_model_id = some h ∧ s.pipe.isSome then
      (.ok (), s, [])
    else
      doLoad s h false (some h) none dev
  | none, some p =>
    if s.model_config.model_path = some p ∧ s.pipe.isSome then
      (.ok (), s, [])
    else
      doLoad s (pathStr p) (decide ("diffusers_cache" ∈ p) = false)
        none (some p) dev

/-- Embeds `update_pipeline` (lines 191-211): run `_load_pipeline` with
the new configuration's ids and device, then install the new
`model_config`; an exception from `_load_pipeline` propagates before the
assignment. -/
def updatePipeline (s : SDState) (mc : ModelConfig) :
    Except SDError Unit × SDState × List SDEvent :=
  match loadPipeline s mc.hf_model_id mc.model_path (some mc.device) with
  | (.ok _, s1, ev) => (.ok (), { s1 with model_config := mc }, ev)
  | (.error e, s1, ev) => (.error e, s1, ev)

/-- Embeds `_load_model_hard_set` (lines 213-229): reload from the
recorded hf id if any, else from the recorded path if any, else from the
per-task default model id. -/
def loadModelHardSet (s : SDState) :
    Except SDError Unit × SDState × List SDEvent :=
  match s.model_config.hf_model_id with
  | some h => loadPipeline s (some h) none none
  | none =>
    match s.model_config.model_path with
    | some p => loadPipeline s none (some p) none
    | none =>
      loadPipeline s (some (PIPELINE_MODEL_MAP s.model_config.task_type))
        none none

/-- The fields of `StableDiffusionInputConfig` that drive the control flow
of `generate_images` and the per-task generation loops. -/
structure InputConfig where
  scheduler_type : Option Nat
  num_batches : Nat
deriving DecidableEq, Repr

/-- The per-task generation loop shared by `_generate_images_text2img`,
`_generate_images_img2img` and `_generate_images_inpainting` at this
abstraction level: `num_batches` pipeline invocations whose outputs
(opaque tokens supplied by the collaborator `pipeImages`) are concatenated
in order; the inpainting task additionally maps the postprocess
collaborator over each batch's outputs. -/
def taskBatches (task : ImageGenTaskTypes) (pipeImages : Nat → List Nat)
    (postImg : Nat → Nat) (n : Nat) : List Nat × List SDEvent :=
  ((List.range n).flatMap (fun k =>
      match task with
      | .INPAINTING => (pipeImages k).map postImg
      | _ => pipeImages k),
   (List.range n).map (fun _ => SDEvent.pipeInvocation))

/-- Embeds `generate_images` (lines 405-443): check the model is loaded
(raising `ValueError("Model not loaded.")` otherwise), then call
`output_dir.mkdir(...)` unconditionally — with `output_dir = None` this
raises an AttributeError before anything else happens — then install the
requested scheduler if any, dispatch on the task type (each task runs
`_load_model_hard_set`, loops over the batches and saves the results), and
return the images. -/
def generateImages (s : SDState) (pipeImages : Nat → List Nat)
    (postImg : Nat → Nat) (cfg : InputConfig) (output_dir : Option String) :
    Except SDError (List Nat) × SDState × List SDEvent :=
  if s.pipe.isNone then
    (.error (.valueError "Model not loaded."), s, [])
  else
    match output_dir with
    | none =>
      (.error (.attributeError "NoneType object has no attribute mkdir"),
       s, [])
    | some d =>
      let ev0 := [SDEvent.mkdirOutput d]
      let s1 :=
        match cfg.scheduler_type with
        | some sched =>
          { s with pipe := s.pipe.map (fun p => { p with scheduler := some sched }) }
        | none => s
      let ev1 :=
        match cfg.scheduler_type with
        | some sched => [SDEvent.setScheduler sched]
        | none => []
      match loadModelHardSet s1 with
      | (.error e, s2, ev2) => (.error e, s2, ev0 ++ ev1 ++ ev2)
      | (.ok _, s2, ev2) =>
        let r := taskBatches s2.model_config.task_type pipeImages postImg
          cfg.num_batches
        (.ok r.1, s2, ev0 ++ ev1 ++ ev2 ++ r.2 ++ [SDEvent.saveImages d])

/-- A `str` or `list` argument value, as the textual-inversion methods
accept (`Union[str, List[str]]` and `Union[Path, List[Path]]`). -/
inductive StrOrList where
  | single (x : String)
  | many (xs : List String)
deriving DecidableEq, Repr

/-- Embeds `load_textual_inversion` (lines 455-504): check the model is
loaded, then validate the file-path/token argument combination and invoke
the pipeline's loader. -/
def loadTextualInversion (s : SDState) (hf : Option StrOrList)
    (file_path : Option StrOrList) (token : Option StrOrList) :
    Except SDError Unit × SDState × List SDEvent :=
  if s.pipe.isNone then
    (.error (.valueError "Model not loaded."), s, [])
  else
    match file_path with
    | some f =>
      match token with
      | none =>
        (.error (.valueError "tokens must be provided when file_paths is provided."),
         s, [])
      | some t =>
        match f, t with
        | .many fs, .many ts =>
          if fs.length ≠ ts.length then
            (.error (.valueError "Number of file paths and tokens must be the same."),
             s, [])
          else
            (.ok (), s, [SDEvent.loadTextualInversionCall])
        | .single _, .single _ =>
          (.ok (), s, [SDEvent.loadTextualInversionCall])
        | _, _ =>
          (.error
            (.valueError
              "file_path and token must be either both single values or both lists."),
           s, [])
    | none =>
      match hf with
      | some _ => (.ok (), s, [SDEvent.loadTextualInversionCall])
      | none =>
        (.error (.valueError "Either file_path or hf_model_id must be provided."),
         s, [])

/-- Embeds `unload_textual_inversion` (lines 506-522): check the model is
loaded, then invoke the pipeline's unloader with the given tokens. -/
def unloadTextualInversion (s : SDState) (tokens : StrOrList) :
    Except SDError Unit × SDState × List SDEvent :=
  if s.pipe.isNone then
    (.error (.valueError "Model not loaded."), s, [])
  else
    (.ok (), s, [SDEvent.unloadTextualInversionCall])

/-- Embeds `unload_all_textual_inversion` (lines 524-535): check the model
is loaded, then invoke the pipeline's unloader without tokens. -/
def unloadAllTextualInversion (s : SDState) :
    Except SDError Unit × SDState × List SDEvent :=
  if s.pipe.isNone then
    (.error (.valueError "Model not loaded."), s, [])
  else
    (.ok (), s, [SDEvent.unloadTextualInversionCall])

/-- C8: while no pipeline is loaded (`self.pipe is None`), every call to
`generate_images`, `load_textual_inversion`, `unload_textual_inversion` or
`unload_all_textual_inversion` raises `ValueError("Model not loaded.")`
with the state unchanged and an empty effect trace — so before any
generation, file-system or pipeline state change. -/
theorem model_not_loaded_guard (s : SDState) (hnone : s.pipe = none)
    (pipeImages : Nat → List Nat) (postImg : Nat → Nat) (cfg : InputConfig)
    (output_dir : Option String) (hf fp tok : Option StrOrList)
    (tokens : StrOrList) :
    generateImages s pipeImages postImg cfg output_dir =
      (.error (.valueError "Model not loaded."), s, []) ∧
    loadTextualInversion s hf fp tok =
      (.error (.valueError "Model not loaded."), s, []) ∧
    unloadTextualInversion s tokens =
      (.error (.valueError "Model not loaded."), s, []) ∧
    unloadAllTextualInversion s =
      (.error (.valueError "Model not loaded."), s, []) := by
  have hn : s.pipe.isNone = true := by rw [hnone]; rfl
  exact ⟨by simp [generateImages, hn], by simp [loadTextualInversion, hn],
    by simp [unloadTextualInversion, hn], by simp [unloadAllTextualInversion, hn]⟩

/-- A fresh instance state with no pipeline loaded, for the C8 witness. -/
def c8state : SDState :=
  ⟨none, ⟨none, none, "cuda", .TEXT2IMG, false⟩⟩

/-- Witness for C8 on a concrete unloaded instance and concrete method
arguments. -/
theorem model_not_loaded_guard_witness :
    generateImages c8state (fun _ => []) id ⟨none, 1⟩ (some "out") =
      (.error (.valueError "Model not loaded."), c8state, []) ∧
    loadTextualInversion c8state (some (.single "sd-ti")) none none =
      (.error (.valueError "Model not loaded."), c8state, []) ∧
    unloadTextualInversion c8state (.single "tok") =
      (.error (.valueError "Model not loaded."), c8state, []) ∧
    unloadAllTextualInversion c8state =
      (.error (.valueError "Model not loaded."), c8state, []) :=
  model_not_loaded_guard c8state rfl (fun _ => []) id ⟨none, 1⟩ (some "out")
    (some (.single "sd-ti")) none none (.single "tok")

/-- C9: every call to `generate_images` with `output_dir = None` (its
declared default) fails with the state unchanged and no effects: with no
model loaded it raises the `ValueError`, and with a loaded model it
reaches the unconditional `output_dir.mkdir(...)` and raises an
AttributeError there, before dispatching to any generation task — a
loaded model is not sufficient for the call to succeed. -/
theorem generate_images_none_output_dir_fails (s : SDState)
    (pipeImages : Nat → List Nat) (postImg : Nat → Nat) (cfg : InputConfig) :
    generateImages s pipeImages postImg cfg none =
      (.error (if s.pipe.isNone then .valueError "Model not loaded."
               else .attributeError "NoneType object has no attribute mkdir"),
       s, []) := by
  by_cases hn : s.pipe.isNone
  · simp [generateImages, hn]
  · simp [generateImages, hn]

/-- C10: `_load_pipeline` is idempotent in the requested model — when the
requested `hf_model_id` (respectively `model_path`) equals the one
recorded in `model_config` and a pipeline is already loaded, it returns
immediately with the state unchanged and nothing loaded — and
`update_pipeline` consequently leaves `self.pipe` unchanged and loads
nothing under the same conditions (it only installs the new config
record). -/
theorem load_pipeline_idempotent (s : SDState) (p : Pipe)
    (hp : s.pipe = some p) :
    (∀ h dev, s.model_config.hf_model_id = some h →
      loadPipeline s (some h) none dev = (.ok (), s, [])) ∧
    (∀ parts dev, s.model_config.model_path = some parts →
      loadPipeline s none (some parts) dev = (.ok (), s, [])) ∧
    (∀ mc : ModelConfig, ∀ h, mc.hf_model_id = some h →
      s.model_config.hf_model_id = some h → mc.model_path = none →
      updatePipeline s mc = (.ok (), ⟨some p, mc⟩, [])) ∧
    (∀ mc : ModelConfig, ∀ parts, mc.model_path = some parts →
      s.model_config.model_path = some parts → mc.hf_model_id = none →
      updatePipeline s mc = (.ok (), ⟨some p, mc⟩, [])) := by
  have hsome : s.pipe.isSome = true := by rw [hp]; rfl
  refine ⟨?_, ?_, ?_, ?_⟩
  · intro h dev hid
    simp [loadPipeline, hid, hsome]
  · intro parts dev hpath
    simp [loadPipeline, hpath, hsome]
  · intro mc h hmc hid hmp
    have hload : loadPipeline s mc.hf_model_id mc.model_path
        (some mc.device) = (.ok (), s, []) := by
      rw [hmc, hmp]
      simp [loadPipeline, hid, hsome]
    rw [updatePipeline, hload]
    dsimp only
    rw [hp]
  · intro mc parts hmc hpath hid
    have hload : loadPipeline s mc.hf_model_id mc.model_path
        (some mc.device) = (.ok (), s, []) := by
      rw [hmc, hid]
      simp [loadPipeline, hpath, hsome]
    rw [updatePipeline, hload]
    dsimp only
    rw [hp]

/-- A loaded pipeline object for the C10 witness. -/
def c10pipe : Pipe :=
  ⟨"sd15-inpaint", .INPAINTING, false, "cuda", false, none⟩

/-- The model configuration recording the already-loaded id, for the C10
witness. -/
def c10mc : ModelConfig :=
  ⟨some "sd15-inpaint", none, "cuda", .INPAINTING, false⟩

/-- Witness for C10: on a concrete loaded state, re-requesting the
recorded hf id through `_load_pipeline` and through `update_pipeline`
leaves the pipeline untouched with an empty load trace. -/
theorem load_pipeline_idempotent_witness :
    loadPipeline ⟨some c10pipe, c10mc⟩ (some "sd15-inpaint") none none =
      (.ok (), ⟨some c10pipe, c10mc⟩, []) ∧
    updatePipeline ⟨some c10pipe, c10mc⟩ c10mc =
      (.ok (), ⟨some c10pipe, c10mc⟩, []) :=
  ⟨(load_pipeline_idempotent ⟨some c10pipe, c10mc⟩ c10pipe rfl).1
      "sd15-inpaint" none rfl,
   (load_pipeline_idempotent ⟨some c10pipe, c10mc⟩ c10pipe rfl).2.2.1
      c10mc "sd15-inpaint" rfl rfl rfl⟩

/-!
## The geometry engine, compositor and composed run

The module implementing `compute_bounding_box`, the region transformer and
the compositor is not among the available sources (only its caller is), so
the definitions below are modelled from the spec, following sections 3,
4.1, 4.3, 4.4, 6 and 7 of it. -/

/-- Modelled from the spec: the Image/Mask data model of section 3 — a
dense 2-D grid with explicit width and height. Pixel values are rationals;
a mask is read as a single channel, and a color image is treated
channel-wise, one independent grid per channel, since every operation
below acts per channel. -/
structure ImageQ where
  width : Nat
  height : Nat
  px : Nat → Nat → ℚ

/-- Modelled from the spec: a BoundingBox (section 3) — left/top
inclusive, right/bottom exclusive. -/
structure BoundingBox where
  left : Nat
  top : Nat
  right : Nat
  bottom : Nat
deriving DecidableEq, Repr

/-- Modelled from the spec: the GeometryError taxonomy of section 7. -/
inductive GeometryError where
  | emptyRegion
  | dimensionMismatch
  | boxOutOfBounds
deriving DecidableEq, Repr

/-- Modelled from the spec: the RegionMapping record of section 3 — the
source bounding box in original coordinates, the transformed output
dimensions and the preprocess policy used. -/
structure RegionMapping where
  box : BoundingBox
  out_width : Nat
  out_height : Nat
  policy : InpaintingPreProcessTypes

/-- Modelled from the spec: the coordinates of the mask pixels above the
masked threshold (section 4.1), scanned row by row. -/
def maskedPixels (m : ImageQ) (threshold : ℚ) : List (Nat × Nat) :=
  ((List.range m.height).map (fun y =>
    (List.range m.width).filterMap (fun x =>
      if threshold < m.px x y then some (x, y) else none))).flatten

/-- Modelled from the spec: `compute_bounding_box` (section 4.1) — the
minimal axis-aligned rectangle enclosing all pixels above the masked
threshold, failing with the empty-region error when there is none. -/
def compute_bounding_box (m : ImageQ) (threshold : ℚ) :
    Except GeometryError BoundingBox :=
  match maskedPixels m threshold with
  | [] => .error .emptyRegion
  | p :: ps =>
    .ok
      { left := (ps.map Prod.fst).foldl min p.1
        top := (ps.map Prod.snd).foldl min p.2
        right := (ps.map Prod.fst).foldl max p.1 + 1
        bottom := (ps.map Prod.snd).foldl max p.2 + 1 }

/-- Modelled from the spec: resizing with a fixed, deterministic
interpolation kernel (nearest neighbour; section 4.2 fixes only that the
kernel be documented and bit-reproducible, and no claim depends on the
kernel's shape). -/
def resizeTo (img : ImageQ) (w h : Nat) : ImageQ :=
  { width := w
    height := h
    px := fun x y => img.px (x * img.width / w) (y * img.height / h) }

/-- Modelled from the spec: the LINEAR blend variant of section 4.3 — the
per-pixel convex combination with the mask value, normalized to [0,1] by
the mask maximum, as weight. -/
def linearBlend (mask patch orig : ImageQ) (maskMax : ℚ) : ImageQ :=
  { width := orig.width
    height := orig.height
    px := fun x y =>
      (mask.px x y / maskMax) * patch.px x y +
        (1 - mask.px x y / maskMax) * orig.px x y }

/-- Modelled from the spec: `composite` (section 4.3) — resize the model
output back to the mapped bounding box, place it there (for NONE/RESIZE
the recorded box is the whole canvas), fail with a geometry error on
mismatched mask dimensions, an out-of-bounds box, or an empty mask under
DIRECT_REPLACE/BLEND, and apply the postprocess policy. Blend variants
other than LINEAR feed the placed patch to the `blendOther` collaborator,
since no claim constrains their kernels. -/
def composite (orig mask modelOut : ImageQ) (mapping : RegionMapping)
    (post : InpaintingPostProcessTypes) (variant : InpaintingBlendingTypes)
    (blendOther : InpaintingBlendingTypes → ImageQ → ImageQ → ImageQ → ImageQ)
    (threshold maskMax : ℚ) : Except GeometryError ImageQ :=
  if mask.width ≠ orig.width ∨ mask.height ≠ orig.height then
    .error .dimensionMismatch
  else if orig.width < mapping.box.right ∨ orig.height < mapping.box.bottom then
    .error .boxOutOfBounds
  else if (post = .DIRECT_REPLACE ∨ post = .BLEND) ∧
      maskedPixels mask threshold = [] then
    .error .emptyRegion
  else
    let patch := resizeTo modelOut (mapping.box.right - mapping.box.left)
      (mapping.box.bottom - mapping.box.top)
    let placed : ImageQ :=
      { width := orig.width
        height := orig.height
        px := fun x y =>
          if mapping.box.left ≤ x ∧ x < mapping.box.right ∧
              mapping.box.top ≤ y ∧ y < mapping.box.bottom then
            patch.px (x - mapping.box.left) (y - mapping.box.top)
          else orig.px x y }
    match post with
    | .NONE => .ok placed
    | .DIRECT_REPLACE =>
      .ok { width := orig.width
            height := orig.height
            px := fun x y =>
              if threshold < mask.px x y then placed.px x y else orig.px x y }
    | .BLEND =>
      match variant with
      | .LINEAR_BLENDING => .ok (linearBlend mask placed orig maskMax)
      | v => .ok (blendOther v mask placed orig)

/-- Modelled from the spec: the error outcomes of the composed run
(sections 6-7): a failed generation call, a ContractViolationError, or a
geometry error from the compositor. -/
inductive RunError where
  | generationFailed
  | contractViolation
  | geometry (e : GeometryError)
deriving DecidableEq, Repr

/-- Modelled from the spec: the composed `run` operation of section 6 and
the orchestration of section 4.4 — prepare the region pair, invoke the
generate collaborator on it, require an output of exactly the requested
target dimensions (ContractViolationError otherwise, surfaced
immediately, with no cropping or padding), then composite. The prepare and
composite components are parameters so that properties of the dimension
check hold for every implementation of them. -/
def runComposed
    (prepareFn : ImageQ → ImageQ → InpaintingPreProcessTypes → Nat → Nat →
      ImageQ × ImageQ × RegionMapping)
    (compositeFn : ImageQ → ImageQ → ImageQ → RegionMapping →
      InpaintingPostProcessTypes → InpaintingBlendingTypes →
      Except GeometryError ImageQ)
    (generate : ImageQ → ImageQ → Except Unit ImageQ)
    (image mask : ImageQ) (preT : InpaintingPreProcessTypes)
    (postT : InpaintingPostProcessTypes) (variant : InpaintingBlendingTypes)
    (target_width target_height : Nat) : Except RunError ImageQ :=
  let r := prepareFn image mask preT target_width target_height
  match generate r.1 r.2.1 with
  | .error _ => .error .generationFailed
  | .ok out =>
    if out.width ≠ target_width ∨ out.height ≠ target_height then
      .error .contractViolation
    else
      match compositeFn image mask out r.2.2 postT variant with
      | .error e => .error (.geometry e)
      | .ok final => .ok final

theorem maskedPixels_eq_nil (m : ImageQ) (threshold : ℚ)
    (h : ∀ x y, x < m.width → y < m.height → ¬ threshold < m.px x y) :
    maskedPixels m threshold = [] := by
  unfold maskedPixels
  rw [List.flatten_eq_nil_iff]
  intro l hl
  simp only [List.mem_map] at hl
  obtain ⟨y, hy, rfl⟩ := hl
  rw [List.filterMap_eq_nil_iff]
  intro x hx
  rw [if_neg (h x y (List.mem_range.mp hx) (List.mem_range.mp hy))]

/-- C5: whenever the generation collaborator returns an image whose
dimensions differ from the requested target width/height, the composed run
surfaces ContractViolationError immediately — for every compositor
implementation, so the misshapen output is never cropped, padded or
composited. -/
theorem contract_violation_on_wrong_dims
    (prepareFn : ImageQ → ImageQ → InpaintingPreProcessTypes → Nat → Nat →
      ImageQ × ImageQ × RegionMapping)
    (compositeFn : ImageQ → ImageQ → ImageQ → RegionMapping →
      InpaintingPostProcessTypes → InpaintingBlendingTypes →
      Except GeometryError ImageQ)
    (generate : ImageQ → ImageQ → Except Unit ImageQ)
    (image mask : ImageQ) (preT : InpaintingPreProcessTypes)
    (postT : InpaintingPostProcessTypes) (variant : InpaintingBlendingTypes)
    (target_width target_height : Nat) (out : ImageQ)
    (hgen : generate (prepareFn image mask preT target_width target_height).1
      (prepareFn image mask preT target_width target_height).2.1 = .ok out)
    (hdims : out.width ≠ target_width ∨ out.height ≠ target_height) :
    runComposed prepareFn compositeFn generate image mask preT postT variant
      target_width target_height = .error .contractViolation := by
  unfold runComposed
  dsimp only
  rw [hgen]
  exact if_pos hdims

/-- Witness for C5: a generator contracted for 4x4 that returns a 5x5
image triggers the contract violation on concrete collaborators. -/
theorem contract_violation_on_wrong_dims_witness :
    runComposed
      (fun i m _ w h => (i, m, ⟨⟨0, 0, 1, 1⟩, w, h, .NONE⟩))
      (fun o _ _ _ _ _ => .ok o)
      (fun _ _ => .ok ⟨5, 5, fun _ _ => 0⟩)
      ⟨4, 4, fun _ _ => 0⟩ ⟨4, 4, fun _ _ => 0⟩ .NONE .NONE .NONE 4 4 =
      .error .contractViolation :=
  contract_violation_on_wrong_dims
    (fun i m _ w h => (i, m, ⟨⟨0, 0, 1, 1⟩, w, h, .NONE⟩))
    (fun o _ _ _ _ _ => .ok o)
    (fun _ _ => .ok ⟨5, 5, fun _ _ => 0⟩)
    ⟨4, 4, fun _ _ => 0⟩ ⟨4, 4, fun _ _ => 0⟩ .NONE .NONE .NONE 4 4
    ⟨5, 5, fun _ _ => 0⟩ rfl (Or.inl (by norm_num))

/-- C6: for BLEND with the LINEAR variant, the composited output is the
per-pixel convex combination `out = mask*patch + (1-mask)*original` with
mask values normalized to [0,1]: on every pixel of the canvas, a mask
value of 0 reproduces the original exactly, a mask value equal to the mask
maximum reproduces the model output (the patch) exactly, and the
normalized weight always lies in [0,1]. -/
theorem blend_linear_convex_combination
    (orig mask modelOut : ImageQ)
    (blendOther : InpaintingBlendingTypes → ImageQ → ImageQ → ImageQ → ImageQ)
    (threshold maskMax : ℚ)
    (hw : 0 < orig.width) (hh : 0 < orig.height)
    (hmw : mask.width = orig.width) (hmh : mask.height = orig.height)
    (how : modelOut.width = orig.width) (hoh : modelOut.height = orig.height)
    (hmax : 0 < maskMax)
    (hne : maskedPixels mask threshold ≠ [])
    (hbound : ∀ x y, x < mask.width → y < mask.height →
      0 ≤ mask.px x y ∧ mask.px x y ≤ maskMax) :
    ∃ out, composite orig mask modelOut
        ⟨⟨0, 0, orig.width, orig.height⟩, orig.width, orig.height, .RESIZE⟩
        .BLEND .LINEAR_BLENDING blendOther threshold maskMax = .ok out ∧
      ∀ x y, x < orig.width → y < orig.height →
        (0 ≤ mask.px x y / maskMax ∧ mask.px x y / maskMax ≤ 1) ∧
        (mask.px x y = 0 → out.px x y = orig.px x y) ∧
        (mask.px x y = maskMax → out.px x y = modelOut.px x y) ∧
        out.px x y = (mask.px x y / maskMax) * modelOut.px x y +
          (1 - mask.px x y / maskMax) * orig.px x y := by
  have h1 : ¬ (mask.width ≠ orig.width ∨ mask.height ≠ orig.height) := by
    simp [hmw, hmh]
  have h2 : ¬ (orig.width < (⟨0, 0, orig.width, orig.height⟩ : BoundingBox).right ∨
      orig.height < (⟨0, 0, orig.width, orig.height⟩ : BoundingBox).bottom) := by
    simp
  have h3 : ¬ ((InpaintingPostProcessTypes.BLEND = .DIRECT_REPLACE ∨
      InpaintingPostProcessTypes.BLEND = .BLEND) ∧
      maskedPixels mask threshold = []) := by
    simp [hne]
  have hcomp : composite orig mask modelOut
      ⟨⟨0, 0, orig.width, orig.height⟩, orig.width, orig.height, .RESIZE⟩
      .BLEND .LINEAR_BLENDING blendOther threshold maskMax =
      .ok (linearBlend mask
        ⟨orig.width, orig.height, fun x y =>
          if 0 ≤ x ∧ x < orig.width ∧ 0 ≤ y ∧ y < orig.height then
            (resizeTo modelOut (orig.width - 0) (orig.height - 0)).px
              (x - 0) (y - 0)
          else orig.px x y⟩
        orig maskMax) := by
    unfold composite
    rw [if_neg h1, if_neg h2, if_neg h3]
  refine ⟨_, hcomp, ?_⟩
  intro x y hx hy
  have hplaced : (⟨orig.width, orig.height, fun x y =>
      if 0 ≤ x ∧ x < orig.width ∧ 0 ≤ y ∧ y < orig.height then
        (resizeTo modelOut (orig.width - 0) (orig.height - 0)).px
          (x - 0) (y - 0)
      else orig.px x y⟩ : ImageQ).px x y = modelOut.px x y := by
    show (if 0 ≤ x ∧ x < orig.width ∧ 0 ≤ y ∧ y < orig.height then
        (resizeTo modelOut (orig.width - 0) (orig.height - 0)).px
          (x - 0) (y - 0)
      else orig.px x y) = modelOut.px x y
    rw [if_pos ⟨Nat.zero_le x, hx, Nat.zero_le y, hy⟩]
    show modelOut.px ((x - 0) * modelOut.width / (orig.width - 0))
      ((y - 0) * modelOut.height / (orig.height - 0)) = modelOut.px x y
    simp only [Nat.sub_zero]
    rw [how, hoh, Nat.mul_div_cancel x hw, Nat.mul_div_cancel y hh]
  have hpx : (linearBlend mask
      ⟨orig.width, orig.height, fun x y =>
        if 0 ≤ x ∧ x < orig.width ∧ 0 ≤ y ∧ y < orig.height then
          (resizeTo modelOut (orig.width - 0) (orig.height - 0)).px
            (x - 0) (y - 0)
        else orig.px x y⟩
      orig maskMax).px x y =
      (mask.px x y / maskMax) * modelOut.px x y +
        (1 - mask.px x y / maskMax) * orig.px x y := by
    show (mask.px x y / maskMax) * _ + (1 - mask.px x y / maskMax) * orig.px x y =
      (mask.px x y / maskMax) * modelOut.px x y +
        (1 - mask.px x y / maskMax) * orig.px x y
    rw [hplaced]
  have hb := hbound x y (by rw [hmw]; exact hx) (by rw [hmh]; exact hy)
  refine ⟨⟨div_nonneg hb.1 hmax.le, (div_le_one hmax).mpr hb.2⟩, ?_, ?_, hpx⟩
  · intro hz
    rw [hpx, hz]
    ring
  · intro hm
    rw [hpx, hm, div_self (ne_of_gt hmax)]
    ring

/-- Witness for C6 on a concrete 2x2 canvas with a graded mask: the mask
maximum is 2, and the pixel values follow the convex-combination
formula. -/
theorem blend_linear_convex_combination_witness :
    ∃ out, composite (⟨2, 2, fun _ _ => 10⟩ : ImageQ)
        (⟨2, 2, fun x _ => x⟩ : ImageQ) (⟨2, 2, fun _ _ => 20⟩ : ImageQ)
        ⟨⟨0, 0, 2, 2⟩, 2, 2, .RESIZE⟩
        .BLEND .LINEAR_BLENDING (fun _ _ p _ => p) 0 2 = .ok out ∧
      ∀ x y, x < (⟨2, 2, fun _ _ => 10⟩ : ImageQ).width →
        y < (⟨2, 2, fun _ _ => 10⟩ : ImageQ).height →
        (0 ≤ (⟨2, 2, fun x _ => x⟩ : ImageQ).px x y / 2 ∧
          (⟨2, 2, fun x _ => x⟩ : ImageQ).px x y / 2 ≤ 1) ∧
        ((⟨2, 2, fun x _ => x⟩ : ImageQ).px x y = 0 →
          out.px x y = (⟨2, 2, fun _ _ => 10⟩ : ImageQ).px x y) ∧
        ((⟨2, 2, fun x _ => x⟩ : ImageQ).px x y = 2 →
          out.px x y = (⟨2, 2, fun _ _ => 20⟩ : ImageQ).px x y) ∧
        out.px x y = ((⟨2, 2, fun x _ => x⟩ : ImageQ).px x y / 2) *
            (⟨2, 2, fun _ _ => 20⟩ : ImageQ).px x y +
          (1 - (⟨2, 2, fun x _ => x⟩ : ImageQ).px x y / 2) *
            (⟨2, 2, fun _ _ => 10⟩ : ImageQ).px x y :=
  blend_linear_convex_combination ⟨2, 2, fun _ _ => 10⟩ ⟨2, 2, fun x _ => x⟩
    ⟨2, 2, fun _ _ => 20⟩ (fun _ _ p _ => p) 0 2
    (by norm_num) (by norm_num) rfl rfl rfl rfl (by norm_num)
    (by decide)
    (fun x y hx _ => ⟨Nat.cast_nonneg x, by
      have hx1 : x ≤ 1 := Nat.lt_succ_iff.mp hx
      have hxq : (x : ℚ) ≤ 1 := by exact_mod_cast hx1
      show (x : ℚ) ≤ 2
      linarith⟩)

/-- C7: `compute_bounding_box` fails with the empty-region error for every
mask in which no pixel exceeds the masked threshold, and an all-zero mask
combined with the DIRECT_REPLACE postprocess makes the compositor raise
the geometry error instead of silently returning an unchanged image. -/
theorem empty_mask_geometry_error (mask : ImageQ) (threshold : ℚ)
    (hempty : ∀ x y, x < mask.width → y < mask.height →
      ¬ threshold < mask.px x y) :
    compute_bounding_box mask threshold = .error .emptyRegion ∧
    ∀ (orig modelOut : ImageQ) (mapping : RegionMapping)
      (variant : InpaintingBlendingTypes)
      (blendOther : InpaintingBlendingTypes → ImageQ → ImageQ → ImageQ →
        ImageQ) (maskMax : ℚ),
      mask.width = orig.width → mask.height = orig.height →
      mapping.box.right ≤ orig.width → mapping.box.bottom ≤ orig.height →
      composite orig mask modelOut mapping .DIRECT_REPLACE variant blendOther
        threshold maskMax = .error .emptyRegion := by
  have hnil : maskedPixels mask threshold = [] :=
    maskedPixels_eq_nil mask threshold hempty
  constructor
  · unfold compute_bounding_box
    rw [hnil]
  · intro orig modelOut mapping variant blendOther maskMax hmw hmh hbr hbb
    unfold composite
    rw [if_neg (by simp [hmw, hmh]), if_neg (by omega),
      if_pos ⟨Or.inl rfl, hnil⟩]

/-- Witness for C7: the all-zero 2x2 mask yields the empty-region error
both from `compute_bounding_box` and from a DIRECT_REPLACE composite. -/
theorem empty_mask_geometry_error_witness :
    compute_bounding_box ⟨2, 2, fun _ _ => 0⟩ 0 = .error .emptyRegion ∧
    composite ⟨2, 2, fun _ _ => 3⟩ ⟨2, 2, fun _ _ => 0⟩ ⟨2, 2, fun _ _ => 5⟩
      ⟨⟨0, 0, 2, 2⟩, 2, 2, .NONE⟩ .DIRECT_REPLACE .NONE (fun _ _ p _ => p)
      0 1 = .error .emptyRegion :=
  ⟨(empty_mask_geometry_error ⟨2, 2, fun _ _ => 0⟩ 0
      (fun _ _ _ _ => lt_irrefl 0)).1,
   (empty_mask_geometry_error ⟨2, 2, fun _ _ => 0⟩ 0
      (fun _ _ _ _ => lt_irrefl 0)).2 ⟨2, 2, fun _ _ => 3⟩
      ⟨2, 2, fun _ _ => 5⟩ ⟨⟨0, 0, 2, 2⟩, 2, 2, .NONE⟩ .NONE
      (fun _ _ p _ => p) 1 rfl rfl (Nat.le_refl 2) (Nat.le_refl 2)⟩

end VisualGen
